import Mathlib

/-
Verification of the eBPF kafka tracing core of the datadog-agent sources:
connection-tuple extraction (pkg/network/ebpf/c/co-re/sock.h) and the kafka
admission / dedup / state-store / batching pipeline
(pkg/network/ebpf/c/kafka/kafka.h), shallowly embedded in Lean.

Machine integers are modelled as Nat with explicit bounds and truncation
where the C code truncates.  eBPF map contents are modelled as association
lists; per-CPU batch pages as a list of pages owned by one worker.
-/

set_option autoImplicit false

namespace DD

/-! ## Common helpers and constants -/

/-- Byte swap of a 16-bit value, modelling bpf_ntohs / ntohs. -/
def ntohs (x : Nat) : Nat := (x % 256) * 256 + (x / 256) % 256

/-- Address family constant AF_INET, from sock.h (`#define __AF_INET 2`). -/
def AF_INET : Nat := 2

/-- Address family constant AF_INET6, from sock.h (`#define __AF_INET6 10`). -/
def AF_INET6 : Nat := 10

/-- Modelled from the spec: the family/protocol flags of the metadata mask are
distinct single-bit flags (their numeric values are defined in a header that is
not part of the observed sources).  V4 flag. -/
def CONN_V4 : Nat := 4

/-- Modelled from the spec: V6 family flag of the metadata mask. -/
def CONN_V6 : Nat := 8

/-- Modelled from the spec: TCP protocol flag of the metadata mask. -/
def CONN_TYPE_TCP : Nat := 2

/-- TCP header FIN flag (value from uapi/linux/tcp.h). -/
def TCPHDR_FIN : Nat := 1

/-- TCP header RST flag (value from uapi/linux/tcp.h). -/
def TCPHDR_RST : Nat := 4

/-- Lookup in an association list, modelling bpf_map_lookup_elem
(none models a NULL pointer result). -/
def mfind {K V : Type} [DecidableEq K] : List (K × V) → K → Option V
  | [], _ => none
  | (k, v) :: rest, k0 => if k = k0 then some v else mfind rest k0

/-- Insert with overwrite, modelling bpf_map_update_elem with BPF_ANY. -/
def minsert {K V : Type} [DecidableEq K] : List (K × V) → K → V → List (K × V)
  | [], k0, v0 => [(k0, v0)]
  | (k, v) :: rest, k0, v0 =>
    if k = k0 then (k0, v0) :: rest else (k, v) :: minsert rest k0 v0

/-- Modelled from the spec: bpf_map_update_elem with BPF_NOEXIST, the atomic
insert-only-if-absent operation; when an entry already exists the update is a
no-op. -/
def minsertIfAbsent {K V : Type} [DecidableEq K] (m : List (K × V)) (k0 : K) (v0 : V) :
    List (K × V) :=
  match mfind m k0 with
  | some _ => m
  | none => (k0, v0) :: m

/-! ## Data model: connection tuple (conn_tuple_t) -/

/-- Shallow embedding of conn_tuple_t.  The two 64-bit halves of each 128-bit
address are kept as separate Nat fields, as in the C struct. -/
structure conn_tuple_t where
  saddr_h : Nat
  saddr_l : Nat
  daddr_h : Nat
  daddr_l : Nat
  sport : Nat
  dport : Nat
  netns : Nat
  pid : Nat
  metadata : Nat
  deriving DecidableEq, Repr

/-- Tuple with every field zero: the state of a conn_tuple_t after the memset
performed by read_conn_tuple. -/
def zero_tuple : conn_tuple_t :=
  { saddr_h := 0, saddr_l := 0, daddr_h := 0, daddr_l := 0,
    sport := 0, dport := 0, netns := 0, pid := 0, metadata := 0 }

/-! ## Kafka segment admission and dedup (kafka.h) -/

/-- Fields of skb_info_t used by kafka_allow_packet. -/
structure skb_info_t where
  data_off : Nat
  tcp_flags : Nat
  tcp_seq : Nat
  deriving DecidableEq, Repr

/-- Fields of struct __sk_buff used by kafka_allow_packet. -/
structure sk_buff_t where
  len : Nat
  deriving DecidableEq, Repr

/-- Shallow embedding of kafka_transaction_t: the owning tuple plus the
remaining fields (parse progress, extracted protocol fields), kept abstract as
a type parameter since the claims treat records as opaque. -/
structure kafka_transaction_t (P : Type) where
  tup : conn_tuple_t
  payload : P
  deriving DecidableEq, Repr

/-- Embedding of kafka_allow_packet.  The kafka_last_tcp_seq_per_connection
map is passed in and the (possibly updated) map is returned alongside the
admission verdict. -/
def kafka_allow_packet {P : Type} (kafka : kafka_transaction_t P) (skb : sk_buff_t)
    (skb_info : skb_info_t) (last_seq : List (conn_tuple_t × Nat)) :
    Bool × List (conn_tuple_t × Nat) :=
  if kafka.tup.metadata &&& CONN_TYPE_TCP = 0 then
    (false, last_seq)
  else if skb_info.data_off = skb.len then
    (decide (skb_info.tcp_flags &&& (TCPHDR_FIN ||| TCPHDR_RST) ≠ 0), last_seq)
  else if mfind last_seq kafka.tup = some skb_info.tcp_seq then
    (false, last_seq)
  else
    (true, minsert last_seq kafka.tup skb_info.tcp_seq)

/-- Embedding of kafka_fetch_state: BPF_NOEXIST insert of the caller's state
followed by a lookup of the (now guaranteed) entry. -/
def kafka_fetch_state {P : Type} (kafka_in_flight : List (conn_tuple_t × kafka_transaction_t P))
    (kafka_transaction : kafka_transaction_t P) :
    List (conn_tuple_t × kafka_transaction_t P) × Option (kafka_transaction_t P) :=
  let m := minsertIfAbsent kafka_in_flight kafka_transaction.tup kafka_transaction
  (m, mfind m kafka_transaction.tup)

/-- Repeated admission over a list of segments for one flow on one worker.
Returns the TCP sequence numbers of the admitted segments, threading the
dedup map through the calls. -/
def kafka_allow_run {P : Type} (kafka : kafka_transaction_t P) (skb : sk_buff_t) :
    List (conn_tuple_t × Nat) → List skb_info_t → List Nat
  | _, [] => []
  | m, si :: rest =>
    let out := kafka_allow_packet kafka skb si m
    (if out.1 then [si.tcp_seq] else []) ++ kafka_allow_run kafka skb out.2 rest

/-! ## Per-worker batch buffer and flush (kafka.h)

The kafka_batches BPF map is keyed by (cpu, batch_idx mod KAFKA_BATCH_PAGES);
pages and cursors of one worker are never touched by another, so the model
keeps one worker's pages as a list indexed by page number and its cursor pair
as a kafka_batch_state_t.  KAFKA_BATCH_SIZE and KAFKA_BATCH_PAGES are numeric
constants defined in a header outside the observed sources, so both are kept
as parameters (size, pages).  Every operation returns, next to the new state,
the list of pages emitted via bpf_perf_event_output during the call. -/

/-- Shallow embedding of kafka_batch_t: page label, fill count, record array. -/
structure kafka_batch_t (P : Type) where
  idx : Nat
  pos : Nat
  txs : List (kafka_transaction_t P)
  deriving DecidableEq, Repr

/-- Shallow embedding of kafka_batch_state_t: the per-worker cursor pair
(write cursor idx, flush cursor idx_to_flush). -/
structure kafka_batch_state_t where
  idx : Nat
  idx_to_flush : Nat
  deriving DecidableEq, Repr

/-- State owned by one worker: its cursor pair and its batch pages. -/
structure worker_state_t (P : Type) where
  batch_state : kafka_batch_state_t
  batches : List (kafka_batch_t P)
  deriving DecidableEq, Repr

/-- Embedding of kafka_get_batch_key restricted to one worker: the page number
component (batch_idx mod KAFKA_BATCH_PAGES); the cpu component is fixed. -/
def kafka_get_batch_key (pages batch_idx : Nat) : Nat := batch_idx % pages

/-- Embedding of kafka_batch_full (the NULL-pointer guard is handled at the
map lookup). -/
def kafka_batch_full {P : Type} (size : Nat) (batch : kafka_batch_t P) : Bool :=
  decide (batch.pos = size)

/-- Embedding of kafka_enqueue.  The function contains no
bpf_perf_event_output call, so its emission list is always empty. -/
def kafka_enqueue {P : Type} (size pages : Nat) (s : worker_state_t P)
    (kafka_transaction : kafka_transaction_t P) :
    worker_state_t P × List (kafka_batch_t P) :=
  let key := kafka_get_batch_key pages s.batch_state.idx
  match s.batches[key]? with
  | none => (s, [])
  | some batch =>
    if kafka_batch_full size batch then
      -- defensive drop: the active page is already full
      (s, [])
    else if size ≤ batch.pos then
      -- bounds check before the array write (pos < 0 cannot arise for Nat)
      (s, [])
    else
      let batch1 : kafka_batch_t P :=
        { batch with
            txs := batch.txs.set batch.pos kafka_transaction,
            pos := batch.pos + 1,
            idx := s.batch_state.idx }
      let bs1 : kafka_batch_state_t :=
        if kafka_batch_full size batch1 then
          { s.batch_state with idx := s.batch_state.idx + 1 }
        else s.batch_state
      ({ batch_state := bs1, batches := s.batches.set key batch1 }, [])

/-- Embedding of kafka_flush_batch.  The emit_status argument stands for the
return value of bpf_perf_event_output, which the C code reads into a local and
discards; it is recorded here to state that the outcome is independent of it. -/
def kafka_flush_batch {P : Type} (pages : Nat) (emit_status : Int) (s : worker_state_t P) :
    worker_state_t P × List (kafka_batch_t P) :=
  if s.batch_state.idx_to_flush = s.batch_state.idx then
    (s, [])
  else
    let key := kafka_get_batch_key pages s.batch_state.idx_to_flush
    match s.batches[key]? with
    | none => (s, [])
    | some batch =>
      ({ batch_state := { s.batch_state with idx_to_flush := s.batch_state.idx_to_flush + 1 },
         batches := s.batches.set key { batch with pos := 0 } },
       [batch])

/-- Worker state at startup: both cursors zero, all pages empty, record slots
holding an arbitrary default record d. -/
def kafka_init_state {P : Type} (size pages : Nat) (d : kafka_transaction_t P) :
    worker_state_t P :=
  { batch_state := { idx := 0, idx_to_flush := 0 },
    batches := List.replicate pages { idx := 0, pos := 0, txs := List.replicate size d } }

/-- State after the first n of the records r 0, r 1, ... have been enqueued on
one worker starting from the startup state. -/
def kafka_enqueue_run {P : Type} (size pages : Nat) (d : kafka_transaction_t P)
    (r : Nat → kafka_transaction_t P) : Nat → worker_state_t P
  | 0 => kafka_init_state size pages d
  | n + 1 => (kafka_enqueue size pages (kafka_enqueue_run size pages d r n) (r n)).1

/-! ## Tuple extraction (co-re/sock.h) -/

/-- Fields of struct sock (and the enclosing inet_sock) read by the tuple
extractor.  The IPv6 addresses appear as their four 32-bit words
(s6_addr32[0..3]); port fields hold 16-bit values, with inet_sport and
sk_dport in network byte order as in the kernel. -/
structure sock_t where
  sk_family : Nat
  sk_rcv_saddr : Nat
  inet_saddr : Nat
  sk_daddr : Nat
  sk_v6_rcv_saddr_w0 : Nat
  sk_v6_rcv_saddr_w1 : Nat
  sk_v6_rcv_saddr_w2 : Nat
  sk_v6_rcv_saddr_w3 : Nat
  sk_v6_daddr_w0 : Nat
  sk_v6_daddr_w1 : Nat
  sk_v6_daddr_w2 : Nat
  sk_v6_daddr_w3 : Nat
  sk_num : Nat
  inet_sport : Nat
  sk_dport : Nat
  netns_inum : Nat
  deriving DecidableEq, Repr

/-- Little-endian placement of two 32-bit words into one 64-bit value, as done
by the word-wise stores `*(u32*)(&t->saddr_h) = ...` in sock.h: lo is the word
written at the lower memory address. -/
def u64_of_u32_pair (lo hi : Nat) : Nat := lo + hi * 2 ^ 32

/-- Embedding of get_netns_from_sock. -/
def get_netns_from_sock (sk : sock_t) : Nat := sk.netns_inum

/-- Embedding of read_sport: try skc_num, then ntohs(inet_sport). -/
def read_sport (sk : sock_t) : Nat :=
  if sk.sk_num = 0 then ntohs sk.inet_sport else sk.sk_num

/-- Embedding of check_family. -/
def check_family (sk : sock_t) (expected_family : Nat) : Bool :=
  decide (sk.sk_family = expected_family)

/-- Modelled from the spec: is_ipv4_mapped_ipv6 is defined in a header outside
the observed sources.  Following the spec (§3, §8, glossary), it recognizes a
source/destination pair in which both 128-bit addresses have the IPv4-mapped
form: upper 64 bits zero and the next 32 bits equal to the fixed 0000:ffff
pattern (word value 0xffff0000 under the little-endian word layout of
u64_of_u32_pair), with the embedded IPv4 bytes in the remaining 32 bits. -/
def is_ipv4_mapped_ipv6 (saddr_h saddr_l daddr_h daddr_l : Nat) : Bool :=
  decide (saddr_h = 0 ∧ saddr_l % 2 ^ 32 = 0xFFFF0000 ∧
          daddr_h = 0 ∧ daddr_l % 2 ^ 32 = 0xFFFF0000)

/-- Port-reading tail of read_conn_tuple_partial (sock.h lines 122-135):
fill sport/dport only if unset, then fail if either is still zero. -/
def read_ports (t : conn_tuple_t) (sk : sock_t) : Bool × conn_tuple_t :=
  let t := if t.sport = 0 then { t with sport := read_sport sk } else t
  let t := if t.dport = 0 then { t with dport := ntohs sk.sk_dport } else t
  if t.sport = 0 ∨ t.dport = 0 then (false, t) else (true, t)

/-- Address-reading steps of the AF_INET branch of read_conn_tuple_partial
(sock.h lines 62-70): fill saddr_l from sk_rcv_saddr, then from inet_saddr,
and daddr_l from sk_daddr, each only if still unset. -/
def read_addrs_v4 (t : conn_tuple_t) (sk : sock_t) : conn_tuple_t :=
  let t1 := if t.saddr_l = 0 then { t with saddr_l := sk.sk_rcv_saddr } else t
  let t2 := if t1.saddr_l = 0 then { t1 with saddr_l := sk.inet_saddr } else t1
  if t2.daddr_l = 0 then { t2 with daddr_l := sk.sk_daddr } else t2

/-- Address-reading steps of the AF_INET6 branch of read_conn_tuple_partial
(sock.h lines 81-92): word-wise store of the v6 source and destination
addresses, each only if both halves are still unset. -/
def read_addrs_v6 (t : conn_tuple_t) (sk : sock_t) : conn_tuple_t :=
  let t1 := if t.saddr_h = 0 ∧ t.saddr_l = 0 then
      { t with saddr_h := u64_of_u32_pair sk.sk_v6_rcv_saddr_w0 sk.sk_v6_rcv_saddr_w1,
               saddr_l := u64_of_u32_pair sk.sk_v6_rcv_saddr_w2 sk.sk_v6_rcv_saddr_w3 }
    else t
  if t1.daddr_h = 0 ∧ t1.daddr_l = 0 then
    { t1 with daddr_h := u64_of_u32_pair sk.sk_v6_daddr_w0 sk.sk_v6_daddr_w1,
              daddr_l := u64_of_u32_pair sk.sk_v6_daddr_w2 sk.sk_v6_daddr_w3 }
  else t1

/-- IPv4-mapped canonicalization step of the AF_INET6 branch (sock.h lines
108-117): either canonicalize to pure-IPv4 form and flag V4, or flag V6. -/
def canonical_or_v6 (t : conn_tuple_t) : conn_tuple_t :=
  if is_ipv4_mapped_ipv6 t.saddr_h t.saddr_l t.daddr_h t.daddr_l then
    { t with metadata := t.metadata ||| CONN_V4,
             saddr_h := 0, daddr_h := 0,
             saddr_l := t.saddr_l / 2 ^ 32 % 2 ^ 32,
             daddr_l := t.daddr_l / 2 ^ 32 % 2 ^ 32 }
  else { t with metadata := t.metadata ||| CONN_V6 }

/-- Embedding of read_conn_tuple_partial (reading from a struct sock).  The
Bool is the C return value (true for 1/success); the tuple is returned as well
because the C function mutates it through a pointer even on failure. -/
def read_conn_tuple_partial_sock (ipv6_enabled : Bool) (t : conn_tuple_t) (sk : sock_t)
    (pid_tgid ty : Nat) : Bool × conn_tuple_t :=
  let t0 := { t with pid := pid_tgid / 2 ^ 32, metadata := ty,
                     netns := get_netns_from_sock sk }
  if check_family sk AF_INET then
    let t1 := read_addrs_v4 { t0 with metadata := t0.metadata ||| CONN_V4 } sk
    if t1.saddr_l = 0 ∨ t1.daddr_l = 0 then (false, t1)
    else read_ports t1 sk
  else if check_family sk AF_INET6 then
    if ipv6_enabled = false then (false, t0)
    else
      let t1 := read_addrs_v6 t0 sk
      if t1.saddr_h = 0 ∧ t1.saddr_l = 0 then (false, t1)
      else if t1.daddr_h = 0 ∧ t1.daddr_l = 0 then (false, t1)
      else read_ports (canonical_or_v6 t1) sk
  else (false, t0)

/-- Embedding of read_conn_tuple: zero the tuple, then the partial read. -/
def read_conn_tuple (ipv6_enabled : Bool) (sk : sock_t) (pid_tgid ty : Nat) :
    Bool × conn_tuple_t :=
  read_conn_tuple_partial_sock ipv6_enabled zero_tuple sk pid_tgid ty

/-- Fields of struct flowi4 read by the route-descriptor entry point; the port
fields are in network byte order. -/
structure flowi4_t where
  saddr : Nat
  daddr : Nat
  fl4_sport : Nat
  fl4_dport : Nat
  deriving DecidableEq, Repr

/-- Embedding of read_conn_tuple_partial_from_flowi4. -/
def read_conn_tuple_partial_from_flowi4 (t : conn_tuple_t) (fl4 : flowi4_t)
    (pid_tgid ty : Nat) : Bool × conn_tuple_t :=
  let t := { t with pid := pid_tgid / 2 ^ 32, metadata := ty,
                    saddr_l := fl4.saddr, daddr_l := fl4.daddr }
  if t.saddr_l = 0 ∨ t.daddr_l = 0 then (false, t)
  else
    let t := { t with sport := fl4.fl4_sport, dport := fl4.fl4_dport }
    if t.sport = 0 ∨ t.dport = 0 then (false, t)
    else (true, { t with sport := ntohs t.sport, dport := ntohs t.dport })

/-- Fields of struct flowi6 read by the IPv6 route-descriptor entry point: the
two 128-bit addresses as four 32-bit words each, and ports in network byte
order. -/
structure flowi6_t where
  saddr_w0 : Nat
  saddr_w1 : Nat
  saddr_w2 : Nat
  saddr_w3 : Nat
  daddr_w0 : Nat
  daddr_w1 : Nat
  daddr_w2 : Nat
  daddr_w3 : Nat
  fl6_sport : Nat
  fl6_dport : Nat
  deriving DecidableEq, Repr

/-- Embedding of read_conn_tuple_partial_from_flowi6.  read_in6_addr is not
among the observed sources; modelled from the spec as the unconditional store
of the four address words into the h/l halves, using the same little-endian
word layout as the struct sock path. -/
def read_conn_tuple_partial_from_flowi6 (t : conn_tuple_t) (fl6 : flowi6_t)
    (pid_tgid ty : Nat) : Bool × conn_tuple_t :=
  let t := { t with pid := pid_tgid / 2 ^ 32, metadata := ty,
                    saddr_h := u64_of_u32_pair fl6.saddr_w0 fl6.saddr_w1,
                    saddr_l := u64_of_u32_pair fl6.saddr_w2 fl6.saddr_w3,
                    daddr_h := u64_of_u32_pair fl6.daddr_w0 fl6.daddr_w1,
                    daddr_l := u64_of_u32_pair fl6.daddr_w2 fl6.daddr_w3 }
  if t.saddr_h = 0 ∧ t.saddr_l = 0 then (false, t)
  else if t.daddr_h = 0 ∧ t.daddr_l = 0 then (false, t)
  else
    let t :=
      if is_ipv4_mapped_ipv6 t.saddr_h t.saddr_l t.daddr_h t.daddr_l then
        { t with metadata := t.metadata ||| CONN_V4,
                 saddr_h := 0, daddr_h := 0,
                 saddr_l := t.saddr_l / 2 ^ 32 % 2 ^ 32,
                 daddr_l := t.daddr_l / 2 ^ 32 % 2 ^ 32 }
      else { t with metadata := t.metadata ||| CONN_V6 }
    let t := { t with sport := fl6.fl6_sport, dport := fl6.fl6_dport }
    if t.sport = 0 ∨ t.dport = 0 then (false, t)
    else (true, { t with sport := ntohs t.sport, dport := ntohs t.dport })

/-! ## Sample values used by the concrete witnesses -/

/-- Tuple whose metadata carries the TCP flag, used by concrete witnesses. -/
def tcp_tuple : conn_tuple_t :=
  { zero_tuple with saddr_l := 1, daddr_l := 2, sport := 10, dport := 20,
                    metadata := CONN_TYPE_TCP }

/-- Transaction over the TCP tuple, used by concrete witnesses. -/
def tcp_ktx : kafka_transaction_t Unit := { tup := tcp_tuple, payload := () }

/-- Transaction over a tuple without the TCP flag, used by concrete witnesses. -/
def udp_ktx : kafka_transaction_t Unit := { tup := zero_tuple, payload := () }

/-- Segment buffer of length 100, used by concrete witnesses. -/
def skb100 : sk_buff_t := { len := 100 }

/-- Empty-payload segment carrying FIN, sequence 7. -/
def si_empty_fin : skb_info_t := { data_off := 100, tcp_flags := TCPHDR_FIN, tcp_seq := 7 }

/-- Empty-payload segment carrying neither FIN nor RST. -/
def si_empty_ack : skb_info_t := { data_off := 100, tcp_flags := 16, tcp_seq := 7 }

/-- Non-empty segment with sequence 7. -/
def si_data7 : skb_info_t := { data_off := 60, tcp_flags := 0, tcp_seq := 7 }

/-- Non-empty segment with sequence 5. -/
def si_data5 : skb_info_t := { data_off := 60, tcp_flags := 0, tcp_seq := 5 }

/-- Non-empty segment with sequence 3. -/
def si_data3 : skb_info_t := { data_off := 60, tcp_flags := 0, tcp_seq := 3 }

/-- Default record with numeric payload 0, used by concrete batch witnesses. -/
def dtx : kafka_transaction_t Nat := { tup := zero_tuple, payload := 0 }

/-- Record stream used by concrete batch witnesses: the n-th completed record
carries payload n + 1. -/
def rtx : Nat → kafka_transaction_t Nat := fun n => { tup := zero_tuple, payload := n + 1 }

/-- Record slots of the worker's page 0 after the first k of the records
r 0, r 1, ... have been enqueued: the first k slots filled, the rest still
holding the default record. -/
def page0_txs {P : Type} (size : Nat) (d : kafka_transaction_t P)
    (r : Nat → kafka_transaction_t P) (k : Nat) : List (kafka_transaction_t P) :=
  (List.range k).map r ++ List.replicate (size - k) d

/-- Refinement-side definition following the spec's words (§4.1, §7), to be
compared with read_conn_tuple_partial_sock: extraction fails exactly on an
unknown address family, on IPv6 while IPv6 inspection is disabled, or when
after all fallback reads a required field (either address or either port) is
still zero. -/
def spec_extraction_failure (enabled : Bool) (sk : sock_t) : Prop :=
  (sk.sk_family ≠ AF_INET ∧ sk.sk_family ≠ AF_INET6) ∨
  (sk.sk_family = AF_INET6 ∧ enabled = false) ∨
  (sk.sk_family = AF_INET ∧
    ((sk.sk_rcv_saddr = 0 ∧ sk.inet_saddr = 0) ∨ sk.sk_daddr = 0)) ∨
  (sk.sk_family = AF_INET6 ∧ enabled = true ∧
    ((u64_of_u32_pair sk.sk_v6_rcv_saddr_w0 sk.sk_v6_rcv_saddr_w1 = 0 ∧
      u64_of_u32_pair sk.sk_v6_rcv_saddr_w2 sk.sk_v6_rcv_saddr_w3 = 0) ∨
     (u64_of_u32_pair sk.sk_v6_daddr_w0 sk.sk_v6_daddr_w1 = 0 ∧
      u64_of_u32_pair sk.sk_v6_daddr_w2 sk.sk_v6_daddr_w3 = 0))) ∨
  (read_sport sk = 0 ∨ ntohs sk.sk_dport = 0)

/-- Resolved IPv4 sock exercising both fallbacks (sk_rcv_saddr and sk_num are
zero, so inet_saddr and ntohs inet_sport are used), for concrete witnesses. -/
def sk_v4res : sock_t :=
  { sk_family := 2, sk_rcv_saddr := 0, inet_saddr := 11, sk_daddr := 12,
    sk_v6_rcv_saddr_w0 := 0, sk_v6_rcv_saddr_w1 := 0,
    sk_v6_rcv_saddr_w2 := 0, sk_v6_rcv_saddr_w3 := 0,
    sk_v6_daddr_w0 := 0, sk_v6_daddr_w1 := 0, sk_v6_daddr_w2 := 0, sk_v6_daddr_w3 := 0,
    sk_num := 0, inet_sport := 256, sk_dport := 512, netns_inum := 5 }

/-- Resolved IPv6 sock whose address pair is not IPv4-mapped, for concrete
witnesses. -/
def sk_v6res : sock_t :=
  { sk_family := 10, sk_rcv_saddr := 0, inet_saddr := 0, sk_daddr := 0,
    sk_v6_rcv_saddr_w0 := 1, sk_v6_rcv_saddr_w1 := 0,
    sk_v6_rcv_saddr_w2 := 0, sk_v6_rcv_saddr_w3 := 0,
    sk_v6_daddr_w0 := 2, sk_v6_daddr_w1 := 0, sk_v6_daddr_w2 := 0, sk_v6_daddr_w3 := 0,
    sk_num := 10, inet_sport := 0, sk_dport := 256, netns_inum := 5 }

/-- Sock carrying the IPv4-mapped pair ::ffff:10.0.0.1 / ::ffff:10.0.0.2
(address words in the little-endian in-memory layout), for the C3 witness. -/
def sk_mapped : sock_t :=
  { sk_family := 10, sk_rcv_saddr := 0, inet_saddr := 0, sk_daddr := 0,
    sk_v6_rcv_saddr_w0 := 0, sk_v6_rcv_saddr_w1 := 0,
    sk_v6_rcv_saddr_w2 := 0xFFFF0000, sk_v6_rcv_saddr_w3 := 0x0100000A,
    sk_v6_daddr_w0 := 0, sk_v6_daddr_w1 := 0,
    sk_v6_daddr_w2 := 0xFFFF0000, sk_v6_daddr_w3 := 0x0200000A,
    sk_num := 10, inet_sport := 0, sk_dport := 256, netns_inum := 5 }

/-- Sock whose address family (7) is neither v4 nor v6, for the C8
counterexample. -/
def sk_badfam : sock_t :=
  { sk_family := 7, sk_rcv_saddr := 1, inet_saddr := 1, sk_daddr := 1,
    sk_v6_rcv_saddr_w0 := 0, sk_v6_rcv_saddr_w1 := 0,
    sk_v6_rcv_saddr_w2 := 0, sk_v6_rcv_saddr_w3 := 0,
    sk_v6_daddr_w0 := 0, sk_v6_daddr_w1 := 0, sk_v6_daddr_w2 := 0, sk_v6_daddr_w3 := 0,
    sk_num := 10, inet_sport := 0, sk_dport := 256, netns_inum := 5 }

/-- IPv6 route descriptor carrying the IPv4-mapped pair of sk_mapped, for the
C3 witness. -/
def fl6_mapped : flowi6_t :=
  { saddr_w0 := 0, saddr_w1 := 0, saddr_w2 := 0xFFFF0000, saddr_w3 := 0x0100000A,
    daddr_w0 := 0, daddr_w1 := 0, daddr_w2 := 0xFFFF0000, daddr_w3 := 0x0200000A,
    fl6_sport := 256, fl6_dport := 512 }

/-- Fully resolved IPv4 route descriptor, for the C7 counterexample and the
C7 and C9 witnesses. -/
def fl4_ok : flowi4_t := { saddr := 7, daddr := 8, fl4_sport := 256, fl4_dport := 512 }

/-- Tuple with a pre-set source address (42), for the C9 counterexample. -/
def t42 : conn_tuple_t := { zero_tuple with saddr_l := 42 }

/-- Tuple with every extractable field pre-set to a nonzero value and an
address pair that is not IPv4-mapped, for the C9 witness. -/
def t_pre : conn_tuple_t :=
  { saddr_h := 31, saddr_l := 32, daddr_h := 33, daddr_l := 34,
    sport := 35, dport := 36, netns := 0, pid := 0, metadata := 0 }

/-! # Theorems -/

/-! ## Association list facts -/

theorem mfind_nil {K V : Type} [DecidableEq K] (k : K) :
    mfind ([] : List (K × V)) k = none := rfl

theorem mfind_minsert_self {K V : Type} [DecidableEq K] (m : List (K × V)) (k : K) (v : V) :
    mfind (minsert m k v) k = some v := by
  induction m with
  | nil => simp [minsert, mfind]
  | cons p rest ih =>
    obtain ⟨k1, v1⟩ := p
    by_cases h : k1 = k
    · simp [minsert, h, mfind]
    · simp [minsert, h, mfind, ih]

/-! ## C4: admission filter -/

/-- C4: a segment whose tuple is not flagged TCP is never admitted (and the
dedup map is untouched); an empty-payload TCP segment is admitted exactly when
its flags carry FIN or RST, with the dedup map neither consulted nor changed
(the verdict and the returned map are the same for every stored map); a
non-empty TCP segment falls through to the dedup sequence check. -/
theorem C4_admission_filter {P : Type} (kafka : kafka_transaction_t P) (skb : sk_buff_t)
    (si : skb_info_t) (m : List (conn_tuple_t × Nat)) :
    (kafka.tup.metadata &&& CONN_TYPE_TCP = 0 →
      kafka_allow_packet kafka skb si m = (false, m)) ∧
    (kafka.tup.metadata &&& CONN_TYPE_TCP ≠ 0 → si.data_off = skb.len →
      kafka_allow_packet kafka skb si m
        = (decide (si.tcp_flags &&& (TCPHDR_FIN ||| TCPHDR_RST) ≠ 0), m)) ∧
    (kafka.tup.metadata &&& CONN_TYPE_TCP ≠ 0 → si.data_off ≠ skb.len →
      kafka_allow_packet kafka skb si m
        = if mfind m kafka.tup = some si.tcp_seq then (false, m)
          else (true, minsert m kafka.tup si.tcp_seq)) := by
  refine ⟨fun h => ?_, fun h1 h2 => ?_, fun h1 h2 => ?_⟩
  · simp [kafka_allow_packet, h]
  · simp [kafka_allow_packet, h1, h2]
  · simp [kafka_allow_packet, h1, h2]

/-- Witness for C4 at concrete inputs: a non-TCP segment is dropped; an empty
FIN segment is admitted even though the dedup map stores exactly its sequence;
an empty plain-ACK segment is dropped; a non-empty TCP segment goes through
the dedup check. -/
theorem C4_admission_filter_witness :
    kafka_allow_packet udp_ktx skb100 si_data7 [] = (false, []) ∧
    kafka_allow_packet tcp_ktx skb100 si_empty_fin [(tcp_tuple, 7)]
      = (true, [(tcp_tuple, 7)]) ∧
    kafka_allow_packet tcp_ktx skb100 si_empty_ack [] = (false, []) ∧
    kafka_allow_packet tcp_ktx skb100 si_data7 [] = (true, [(tcp_tuple, 7)]) := by
  refine ⟨?_, ?_, ?_, ?_⟩
  · exact (C4_admission_filter udp_ktx skb100 si_data7 []).1 (by decide)
  · have h := (C4_admission_filter tcp_ktx skb100 si_empty_fin
      [(tcp_tuple, 7)]).2.1 (by decide) (by decide)
    rw [h]; decide
  · have h := (C4_admission_filter tcp_ktx skb100 si_empty_ack []).2.1 (by decide) (by decide)
    rw [h]; decide
  · have h := (C4_admission_filter tcp_ktx skb100 si_data7 []).2.2 (by decide) (by decide)
    rw [h]; decide

/-! ## C5: dedup guard idempotence -/

/-- C5: on a non-empty TCP segment, if the stored sequence for the tuple
equals the segment's sequence the segment is rejected with the map unchanged;
otherwise it is accepted and the stored sequence is overwritten.  Hence a
second presentation of the identical (tuple, sequence) pair right after an
admitted one is rejected and changes nothing. -/
theorem C5_dedup_idempotent {P : Type} (kafka : kafka_transaction_t P) (skb : sk_buff_t)
    (si si2 : skb_info_t) (m : List (conn_tuple_t × Nat))
    (htcp : kafka.tup.metadata &&& CONN_TYPE_TCP ≠ 0)
    (hne : si.data_off ≠ skb.len) :
    (mfind m kafka.tup = some si.tcp_seq →
      kafka_allow_packet kafka skb si m = (false, m)) ∧
    (mfind m kafka.tup ≠ some si.tcp_seq →
      kafka_allow_packet kafka skb si m = (true, minsert m kafka.tup si.tcp_seq)) ∧
    (si2.data_off ≠ skb.len → si2.tcp_seq = si.tcp_seq →
      (kafka_allow_packet kafka skb si m).1 = true →
      kafka_allow_packet kafka skb si2 (kafka_allow_packet kafka skb si m).2
        = (false, (kafka_allow_packet kafka skb si m).2)) := by
  refine ⟨fun h => ?_, fun h => ?_, fun h2ne h2eq hadm => ?_⟩
  · simp [kafka_allow_packet, htcp, hne, h]
  · simp [kafka_allow_packet, htcp, hne, h]
  · have hm : mfind m kafka.tup ≠ some si.tcp_seq := by
      intro hc
      have hfst : (kafka_allow_packet kafka skb si m).1 = false := by
        simp [kafka_allow_packet, htcp, hne, hc]
      rw [hadm] at hfst
      exact Bool.noConfusion hfst
    have hsnd : (kafka_allow_packet kafka skb si m).2 = minsert m kafka.tup si.tcp_seq := by
      simp [kafka_allow_packet, htcp, hne, hm]
    rw [hsnd]
    simp [kafka_allow_packet, htcp, h2ne, mfind_minsert_self, h2eq]

/-- Witness for C5 at concrete inputs: sequence 7 is admitted from an empty
map, and the identical (tuple, sequence) pair presented again is rejected with
the map unchanged. -/
theorem C5_dedup_idempotent_witness :
    kafka_allow_packet tcp_ktx skb100 si_data7 [] = (true, [(tcp_tuple, 7)]) ∧
    kafka_allow_packet tcp_ktx skb100 si_data7 [(tcp_tuple, 7)] = (false, [(tcp_tuple, 7)]) := by
  have h := C5_dedup_idempotent tcp_ktx skb100 si_data7 si_data7 [] (by decide) (by decide)
  refine ⟨?_, ?_⟩
  · have h1 := h.2.1 (by decide)
    rw [h1]; decide
  · have h2 := h.1
    have hfind : mfind [(tcp_tuple, 7)] tcp_ktx.tup = some si_data7.tcp_seq := by decide
    have := C5_dedup_idempotent tcp_ktx skb100 si_data7 si_data7 [(tcp_tuple, 7)]
      (by decide) (by decide)
    have h3 := this.1 hfind
    rw [h3]

/-! ## C6: transaction state store get-or-create -/

/-- C6: fetching per-flow state inserts the fresh state only when no entry
exists for the tuple; when an entry exists the insert is a no-op, the map is
unchanged, and the previously stored entry is the one returned. -/
theorem C6_fetch_state {P : Type} (m : List (conn_tuple_t × kafka_transaction_t P))
    (ktx : kafka_transaction_t P) :
    (∀ old, mfind m ktx.tup = some old →
      kafka_fetch_state m ktx = (m, some old)) ∧
    (mfind m ktx.tup = none →
      kafka_fetch_state m ktx = ((ktx.tup, ktx) :: m, some ktx)) := by
  constructor
  · intro old h
    simp [kafka_fetch_state, minsertIfAbsent, h]
  · intro h
    simp [kafka_fetch_state, minsertIfAbsent, h, mfind]

/-- Witness for C6 at concrete inputs: with no entry the fresh state is
inserted and returned; with an existing entry carrying payload 1, fetching a
state with payload 2 leaves the map unchanged and returns the stored entry. -/
theorem C6_fetch_state_witness :
    kafka_fetch_state [] (⟨tcp_tuple, 2⟩ : kafka_transaction_t Nat)
      = ([(tcp_tuple, ⟨tcp_tuple, 2⟩)], some ⟨tcp_tuple, 2⟩) ∧
    kafka_fetch_state [(tcp_tuple, (⟨tcp_tuple, 1⟩ : kafka_transaction_t Nat))]
        ⟨tcp_tuple, 2⟩
      = ([(tcp_tuple, ⟨tcp_tuple, 1⟩)], some ⟨tcp_tuple, 1⟩) := by
  constructor
  · exact (C6_fetch_state [] ⟨tcp_tuple, 2⟩).2 (by decide)
  · exact (C6_fetch_state [(tcp_tuple, ⟨tcp_tuple, 1⟩)] ⟨tcp_tuple, 2⟩).1
      ⟨tcp_tuple, 1⟩ (by decide)

/-! ## C10: ordering of admitted segments for one flow -/

/-- Helper for C10: across a run of non-empty TCP segments of one flow, the
stored last-processed sequence (when present) followed by the admitted
sequence numbers has pairwise-distinct neighbours. -/
theorem kafka_allow_run_chain {P : Type} (kafka : kafka_transaction_t P) (skb : sk_buff_t)
    (htcp : kafka.tup.metadata &&& CONN_TYPE_TCP ≠ 0) :
    ∀ (l : List skb_info_t) (m : List (conn_tuple_t × Nat)),
      (∀ si ∈ l, si.data_off ≠ skb.len) →
      List.Chain' (fun a b => a ≠ b)
        ((match mfind m kafka.tup with
          | some s => [s]
          | none => []) ++ kafka_allow_run kafka skb m l) := by
  intro l
  induction l with
  | nil =>
    intro m _
    cases h : mfind m kafka.tup <;> simp [kafka_allow_run]
  | cons si rest ih =>
    intro m hall
    have hsi : si.data_off ≠ skb.len := hall si (by simp)
    have hrest : ∀ x ∈ rest, x.data_off ≠ skb.len := fun x hx => hall x (by simp [hx])
    by_cases hdup : mfind m kafka.tup = some si.tcp_seq
    · have hstep : kafka_allow_packet kafka skb si m = (false, m) := by
        simp [kafka_allow_packet, htcp, hsi, hdup]
      have ihm := ih m hrest
      rw [hdup] at ihm ⊢
      simpa [kafka_allow_run, hstep] using ihm
    · have hstep : kafka_allow_packet kafka skb si m
          = (true, minsert m kafka.tup si.tcp_seq) := by
        simp [kafka_allow_packet, htcp, hsi, hdup]
      have ih2 := ih (minsert m kafka.tup si.tcp_seq) hrest
      rw [mfind_minsert_self] at ih2
      cases hm : mfind m kafka.tup with
      | none =>
        simpa [kafka_allow_run, hstep] using ih2
      | some s =>
        have hs : s ≠ si.tcp_seq := fun hc => hdup (by rw [hm, hc])
        have goal2 : List.Chain' (fun a b => a ≠ b)
            (s :: si.tcp_seq ::
              kafka_allow_run kafka skb (minsert m kafka.tup si.tcp_seq) rest) :=
          List.chain'_cons.mpr ⟨hs, by simpa using ih2⟩
        simpa [kafka_allow_run, hstep] using goal2

/-- C10 counterexample to the claim as stated: for a flow whose stored
last-processed sequence is 5 (reached by admitting sequence 5 from an empty
map), a non-empty TCP segment with the smaller sequence 3 is admitted, so a
segment whose sequence is not greater than the last-processed one is not
"never admitted" and the admitted sequences are not monotonically
increasing. -/
theorem C10_counterexample :
    kafka_allow_packet tcp_ktx skb100 si_data5 [] = (true, [(tcp_tuple, 5)]) ∧
    (kafka_allow_packet tcp_ktx skb100 si_data3 [(tcp_tuple, 5)]).1 = true ∧
    3 < 5 := by decide

/-- C10 amended: the dedup guard enforces only inequality with the stored
last-processed sequence, not monotonicity: on one worker, a non-empty TCP
segment whose sequence equals the stored last-processed sequence for its flow
is never admitted, and consequently the sequence numbers of the admitted
segments of a run have pairwise-distinct neighbours. -/
theorem C10_amended {P : Type} (kafka : kafka_transaction_t P) (skb : sk_buff_t)
    (m : List (conn_tuple_t × Nat)) (l : List skb_info_t)
    (htcp : kafka.tup.metadata &&& CONN_TYPE_TCP ≠ 0)
    (hall : ∀ si ∈ l, si.data_off ≠ skb.len) :
    (∀ si : skb_info_t, si.data_off ≠ skb.len →
      mfind m kafka.tup = some si.tcp_seq →
      (kafka_allow_packet kafka skb si m).1 = false) ∧
    List.Chain' (fun a b => a ≠ b) (kafka_allow_run kafka skb m l) := by
  constructor
  · intro si hsi hdup
    simp [kafka_allow_packet, htcp, hsi, hdup]
  · have h := kafka_allow_run_chain kafka skb htcp l m hall
    cases hm : mfind m kafka.tup with
    | none => rw [hm] at h; simpa using h
    | some s =>
      rw [hm] at h
      simpa using h.tail

/-- Witness for C10 amended at concrete inputs: admitting sequences 7, 7, 5, 7
in a row yields the admitted list [7, 5, 7], whose neighbours are pairwise
distinct, and the duplicate second 7 is rejected. -/
theorem C10_amended_witness :
    (kafka_allow_packet tcp_ktx skb100 si_data7 [(tcp_tuple, 7)]).1 = false ∧
    List.Chain' (fun a b => a ≠ b)
      (kafka_allow_run tcp_ktx skb100 [] [si_data7, si_data7, si_data5, si_data7]) ∧
    kafka_allow_run tcp_ktx skb100 [] [si_data7, si_data7, si_data5, si_data7]
      = [7, 5, 7] := by
  have h := C10_amended tcp_ktx skb100 [(tcp_tuple, 7)]
    [si_data7, si_data7, si_data5, si_data7] (by decide) (by decide)
  have h2 := C10_amended tcp_ktx skb100 ([] : List (conn_tuple_t × Nat))
    [si_data7, si_data7, si_data5, si_data7] (by decide) (by decide)
  exact ⟨h.1 si_data7 (by decide) (by decide), h2.2, by decide⟩

/-! ## C1: enqueue -/

theorem page0_txs_set {P : Type} (size : Nat) (d : kafka_transaction_t P)
    (r : Nat → kafka_transaction_t P) (k : Nat) (hk : k < size) :
    (page0_txs size d r k).set k (r k) = page0_txs size d r (k + 1) := by
  have hsk : size - k = (size - (k + 1)) + 1 := by omega
  unfold page0_txs
  rw [List.range_succ, hsk, List.replicate_succ]
  simp [List.set_append]

theorem page0_txs_get {P : Type} (size : Nat) (d : kafka_transaction_t P)
    (r : Nat → kafka_transaction_t P) (i : Nat) (hi : i < size) :
    (page0_txs size d r size)[i]? = some (r i) := by
  unfold page0_txs
  rw [List.getElem?_append_left (by simpa using hi)]
  simp [hi]

/-- Helper for C1: explicit worker state after the first k ≤ size enqueues
from the startup state: page 0 holds the first k records, the write cursor
has advanced exactly when page 0 became full. -/
theorem kafka_enqueue_run_eq {P : Type} (size pages : Nat) (d : kafka_transaction_t P)
    (r : Nat → kafka_transaction_t P) (hsize : 2 ≤ size) (hpages : 2 ≤ pages) :
    ∀ k, k ≤ size →
      kafka_enqueue_run size pages d r k =
        { batch_state := { idx := if k = size then 1 else 0, idx_to_flush := 0 },
          batches := (List.replicate pages
              { idx := 0, pos := 0, txs := List.replicate size d }).set 0
            { idx := 0, pos := k, txs := page0_txs size d r k } } := by
  intro k
  induction k with
  | zero =>
    intro _
    have h0 : page0_txs size d r 0 = List.replicate size d := by simp [page0_txs]
    have hne : ¬ ((0 : Nat) = size) := by omega
    rw [kafka_enqueue_run, kafka_init_state, h0, if_neg hne]
    cases hp : pages with
    | zero => omega
    | succ q => simp [List.replicate_succ]
  | succ k ih =>
    intro hk1
    have hk : k ≤ size := by omega
    have hkne : ¬ (k = size) := by omega
    have hklt : k < size := by omega
    have hlenpos : 0 < (List.replicate pages
        ({ idx := 0, pos := 0, txs := List.replicate size d } : kafka_batch_t P)).length := by
      simp; omega
    rw [kafka_enqueue_run, ih hk]
    rw [kafka_enqueue]
    simp only [kafka_get_batch_key, if_neg hkne, Nat.zero_mod, List.getElem?_set_self,
      List.length_replicate, kafka_batch_full]
    rw [List.getElem?_set_self (by simpa using hlenpos)]
    simp only [Option.some.injEq]
    have hfull : ¬ (k = size) := hkne
    have hle : ¬ (size ≤ k) := by omega
    simp only [decide_eq_true_eq, hfull, if_neg, hle, ite_false, if_false]
    rw [page0_txs_set size d r k hklt]
    rw [List.set_set]
    by_cases hks : k + 1 = size
    · simp [hks]
    · simp [hks]

/-- Helper for C1: explicit worker state after size + 1 enqueues: page 0 full
with the first size records, page 1 opened with the (size+1)-th record in its
first slot, write cursor advanced by exactly one. -/
theorem kafka_enqueue_run_final {P : Type} (size pages : Nat) (d : kafka_transaction_t P)
    (r : Nat → kafka_transaction_t P) (hsize : 2 ≤ size) (hpages : 2 ≤ pages) :
    kafka_enqueue_run size pages d r (size + 1) =
      { batch_state := { idx := 1, idx_to_flush := 0 },
        batches := ((List.replicate pages
            { idx := 0, pos := 0, txs := List.replicate size d }).set 0
          { idx := 0, pos := size, txs := page0_txs size d r size }).set 1
          { idx := 1, pos := 1, txs := (List.replicate size d).set 0 (r size) } } := by
  have hrun : kafka_enqueue_run size pages d r size =
      { batch_state := { idx := 1, idx_to_flush := 0 },
        batches := (List.replicate pages
            { idx := 0, pos := 0, txs := List.replicate size d }).set 0
          { idx := 0, pos := size, txs := page0_txs size d r size } } := by
    rw [kafka_enqueue_run_eq size pages d r hsize hpages size le_rfl]
    simp
  rw [kafka_enqueue_run, hrun, kafka_enqueue]
  have h1p : kafka_get_batch_key pages 1 = 1 := Nat.mod_eq_of_lt (by omega)
  have hget : (((List.replicate pages
      ({ idx := 0, pos := 0, txs := List.replicate size d } : kafka_batch_t P)).set 0
      { idx := 0, pos := size, txs := page0_txs size d r size }))[1]?
      = some { idx := 0, pos := 0, txs := List.replicate size d } := by
    rw [List.getElem?_set_ne (show (0 : Nat) ≠ 1 by omega)]
    rw [List.getElem?_replicate, if_pos (show 1 < pages by omega)]
  have hfull : ¬ ((0 : Nat) = size) := by omega
  have hle : ¬ (size ≤ 0) := by omega
  have hone : ¬ ((0 : Nat) + 1 = size) := by omega
  simp [h1p, hget, kafka_batch_full, hfull, hle, hone]

/-- C1: enqueue on one worker: when the active page's fill count has reached
(or defensively exceeds) capacity, the record is dropped and nothing — no page
element, no cursor — changes; otherwise the record is written at position
fill-count, the fill count is incremented, and the write cursor idx advances
by one exactly when the page thereby becomes full, while idx_to_flush is
untouched; in all cases nothing is emitted (no inline flush).  Consequently
enqueuing capacity + 1 records from the startup state leaves exactly capacity
records in page 0, the last record as the sole record of page 1, and the write
cursor advanced by exactly one. -/
theorem C1_enqueue {P : Type} (size pages : Nat) (s : worker_state_t P)
    (tx : kafka_transaction_t P) (batch : kafka_batch_t P)
    (hb : s.batches[kafka_get_batch_key pages s.batch_state.idx]? = some batch) :
    (size ≤ batch.pos → kafka_enqueue size pages s tx = (s, [])) ∧
    (batch.pos < size →
      kafka_enqueue size pages s tx =
        ({ batch_state :=
            if batch.pos + 1 = size then
              { idx := s.batch_state.idx + 1, idx_to_flush := s.batch_state.idx_to_flush }
            else s.batch_state,
           batches := s.batches.set (kafka_get_batch_key pages s.batch_state.idx)
            { idx := s.batch_state.idx, pos := batch.pos + 1,
              txs := batch.txs.set batch.pos tx } }, [])) ∧
    (∀ (d : kafka_transaction_t P) (r : Nat → kafka_transaction_t P),
      2 ≤ size → 2 ≤ pages →
      (kafka_enqueue_run size pages d r (size + 1)).batch_state.idx = 1 ∧
      (kafka_enqueue_run size pages d r (size + 1)).batch_state.idx_to_flush = 0 ∧
      (∃ p0, (kafka_enqueue_run size pages d r (size + 1)).batches[0]? = some p0 ∧
        p0.pos = size ∧ ∀ i, i < size → p0.txs[i]? = some (r i)) ∧
      (∃ p1, (kafka_enqueue_run size pages d r (size + 1)).batches[1]? = some p1 ∧
        p1.pos = 1 ∧ p1.txs[0]? = some (r size))) := by
  refine ⟨fun h => ?_, fun h => ?_, fun d r hsize hpages => ?_⟩
  · by_cases hfull : batch.pos = size
    · simp [kafka_enqueue, hb, kafka_batch_full, hfull]
    · simp [kafka_enqueue, hb, kafka_batch_full, hfull, h]
  · have hfull : ¬ (batch.pos = size) := by omega
    have hle : ¬ (size ≤ batch.pos) := by omega
    simp only [kafka_enqueue, hb, kafka_batch_full, decide_eq_true_eq, hfull, hle,
      if_false, ite_false]
  · rw [kafka_enqueue_run_final size pages d r hsize hpages]
    have hlen : (List.replicate pages
        ({ idx := 0, pos := 0, txs := List.replicate size d } : kafka_batch_t P)).length
        = pages := by simp
    refine ⟨rfl, rfl, ⟨{ idx := 0, pos := size, txs := page0_txs size d r size }, ?_, rfl,
      fun i hi => page0_txs_get size d r i hi⟩,
      ⟨{ idx := 1, pos := 1, txs := (List.replicate size d).set 0 (r size) }, ?_, rfl, ?_⟩⟩
    · rw [List.getElem?_set_ne (by omega)]
      rw [List.getElem?_set_self (by simp; omega)]
    · rw [List.getElem?_set_self (by simp; omega)]
    · have : 0 < size := by omega
      cases hs : size with
      | zero => omega
      | succ q => simp [List.replicate_succ]

/-- Witness for C1: the capacity + 1 scenario instantiated at capacity 2 and
2 pages with the concrete record stream rtx. -/
theorem C1_enqueue_witness :
    (kafka_enqueue_run 2 2 dtx rtx 3).batch_state.idx = 1 ∧
    (kafka_enqueue_run 2 2 dtx rtx 3).batch_state.idx_to_flush = 0 ∧
    (∃ p0, (kafka_enqueue_run 2 2 dtx rtx 3).batches[0]? = some p0 ∧
      p0.pos = 2 ∧ ∀ i, i < 2 → p0.txs[i]? = some (rtx i)) ∧
    (∃ p1, (kafka_enqueue_run 2 2 dtx rtx 3).batches[1]? = some p1 ∧
      p1.pos = 1 ∧ p1.txs[0]? = some (rtx 2)) :=
  (C1_enqueue 2 2 (kafka_init_state 2 2 dtx) (rtx 0)
    { idx := 0, pos := 0, txs := [dtx, dtx] } (by decide)).2.2 dtx rtx
    (by decide) (by decide)

/-! ## C2: flush -/

/-- C2 counterexample to the claim as stated: from the startup state of a
worker with capacity 2 and 3 pages, enqueue 4 records (a reachable state whose
write cursor is 2 pages ahead of the flush cursor); then two consecutive flush
calls with no intervening enqueue each emit one export event — two in total,
not exactly one, and the second call is not a no-op. -/
theorem C2_counterexample :
    (kafka_flush_batch 3 0 (kafka_enqueue_run 2 3 dtx rtx 4)).2.length = 1 ∧
    (kafka_flush_batch 3 0
      (kafka_flush_batch 3 0 (kafka_enqueue_run 2 3 dtx rtx 4)).1).2.length = 1 ∧
    1 + 1 ≠ 1 := by decide

/-- C2 amended: a flush with flush_index equal to write_index is a no-op
(emits nothing, changes nothing); otherwise it emits the entire page at
flush_index as the one export record of the call, resets that page's fill
count to zero and advances flush_index by one; the outcome is independent of
the emit status (no retry).  Two consecutive flush calls with no intervening
enqueue emit exactly one export event — with the second call a no-op — when
the write cursor is exactly one page ahead; in general each call drains at
most one page per call. -/
theorem C2_flush {P : Type} (pages : Nat) (st st2 : Int) (s : worker_state_t P)
    (batch : kafka_batch_t P)
    (hb : s.batches[kafka_get_batch_key pages s.batch_state.idx_to_flush]? = some batch) :
    (s.batch_state.idx_to_flush = s.batch_state.idx →
      kafka_flush_batch pages st s = (s, [])) ∧
    (s.batch_state.idx_to_flush ≠ s.batch_state.idx →
      kafka_flush_batch pages st s =
        ({ batch_state := { idx := s.batch_state.idx,
                            idx_to_flush := s.batch_state.idx_to_flush + 1 },
           batches := s.batches.set (kafka_get_batch_key pages s.batch_state.idx_to_flush)
            { idx := batch.idx, pos := 0, txs := batch.txs } }, [batch])) ∧
    (kafka_flush_batch pages st s = kafka_flush_batch pages st2 s) ∧
    ((kafka_flush_batch pages st s).2.length ≤ 1) ∧
    (s.batch_state.idx = s.batch_state.idx_to_flush + 1 →
      (kafka_flush_batch pages st s).2 = [batch] ∧
      kafka_flush_batch pages st2 (kafka_flush_batch pages st s).1
        = ((kafka_flush_batch pages st s).1, [])) := by
  have hstep : s.batch_state.idx_to_flush ≠ s.batch_state.idx →
      kafka_flush_batch pages st s =
        ({ batch_state := { idx := s.batch_state.idx,
                            idx_to_flush := s.batch_state.idx_to_flush + 1 },
           batches := s.batches.set (kafka_get_batch_key pages s.batch_state.idx_to_flush)
            { idx := batch.idx, pos := 0, txs := batch.txs } }, [batch]) := by
    intro h
    simp [kafka_flush_batch, h, hb]
  refine ⟨fun h => by simp [kafka_flush_batch, h], hstep, rfl, ?_, fun h => ?_⟩
  · by_cases h : s.batch_state.idx_to_flush = s.batch_state.idx
    · simp [kafka_flush_batch, h]
    · rw [hstep h]; simp
  · have hne : s.batch_state.idx_to_flush ≠ s.batch_state.idx := by omega
    rw [hstep hne]
    refine ⟨rfl, ?_⟩
    simp [kafka_flush_batch, h]

/-- Witness for C2 at a concrete reachable state: capacity 2, 3 pages, two
records enqueued, so exactly one page is pending; the first flush emits that
page and the second flush is a no-op. -/
theorem C2_flush_witness :
    (kafka_flush_batch 3 0 (kafka_enqueue_run 2 3 dtx rtx 2)).2
      = [{ idx := 0, pos := 2, txs := [rtx 0, rtx 1] }] ∧
    kafka_flush_batch 3 0 (kafka_flush_batch 3 0 (kafka_enqueue_run 2 3 dtx rtx 2)).1
      = ((kafka_flush_batch 3 0 (kafka_enqueue_run 2 3 dtx rtx 2)).1, []) :=
  (C2_flush 3 0 0 (kafka_enqueue_run 2 3 dtx rtx 2)
    { idx := 0, pos := 2, txs := [rtx 0, rtx 1] } (by decide)).2.2.2.2 (by decide)

/-! ## Tuple extraction helper lemmas -/

theorem read_ports_addr_fields (t : conn_tuple_t) (sk : sock_t) :
    (read_ports t sk).2.saddr_h = t.saddr_h ∧ (read_ports t sk).2.saddr_l = t.saddr_l ∧
    (read_ports t sk).2.daddr_h = t.daddr_h ∧ (read_ports t sk).2.daddr_l = t.daddr_l ∧
    (read_ports t sk).2.metadata = t.metadata ∧ (read_ports t sk).2.netns = t.netns ∧
    (read_ports t sk).2.pid = t.pid := by
  unfold read_ports
  by_cases h1 : t.sport = 0 <;> by_cases h2 : t.dport = 0 <;> simp [h1, h2] <;> split <;> simp

theorem read_ports_spec (t : conn_tuple_t) (sk : sock_t) :
    ((read_ports t sk).2.sport = if t.sport = 0 then read_sport sk else t.sport) ∧
    ((read_ports t sk).2.dport = if t.dport = 0 then ntohs sk.sk_dport else t.dport) ∧
    ((read_ports t sk).1 = true ↔
      ((read_ports t sk).2.sport ≠ 0 ∧ (read_ports t sk).2.dport ≠ 0)) := by
  unfold read_ports
  by_cases h1 : t.sport = 0 <;> by_cases h2 : t.dport = 0 <;>
    simp [h1, h2] <;> split <;> simp_all <;> tauto

theorem read_addrs_v4_fields (t : conn_tuple_t) (sk : sock_t) :
    (read_addrs_v4 t sk).sport = t.sport ∧ (read_addrs_v4 t sk).dport = t.dport ∧
    (read_addrs_v4 t sk).saddr_h = t.saddr_h ∧ (read_addrs_v4 t sk).daddr_h = t.daddr_h ∧
    (read_addrs_v4 t sk).metadata = t.metadata ∧ (read_addrs_v4 t sk).netns = t.netns ∧
    (read_addrs_v4 t sk).pid = t.pid := by
  unfold read_addrs_v4
  by_cases h1 : t.saddr_l = 0 <;> simp [h1] <;> split_ifs <;> simp

theorem read_addrs_v4_saddr (t : conn_tuple_t) (sk : sock_t) (h : t.saddr_l ≠ 0) :
    (read_addrs_v4 t sk).saddr_l = t.saddr_l := by
  unfold read_addrs_v4
  by_cases h1 : t.saddr_l = 0 <;> simp_all <;> split_ifs <;> simp_all

theorem read_addrs_v4_daddr (t : conn_tuple_t) (sk : sock_t) (h : t.daddr_l ≠ 0) :
    (read_addrs_v4 t sk).daddr_l = t.daddr_l := by
  unfold read_addrs_v4
  by_cases h1 : t.saddr_l = 0 <;> simp_all <;> split_ifs <;> simp_all

theorem read_addrs_v6_fields (t : conn_tuple_t) (sk : sock_t) :
    (read_addrs_v6 t sk).sport = t.sport ∧ (read_addrs_v6 t sk).dport = t.dport ∧
    (read_addrs_v6 t sk).metadata = t.metadata ∧ (read_addrs_v6 t sk).netns = t.netns ∧
    (read_addrs_v6 t sk).pid = t.pid := by
  unfold read_addrs_v6
  by_cases h1 : t.saddr_h = 0 ∧ t.saddr_l = 0 <;> simp [h1] <;> split_ifs <;> simp

theorem read_addrs_v6_pre (t : conn_tuple_t) (sk : sock_t)
    (hsa : ¬ (t.saddr_h = 0 ∧ t.saddr_l = 0)) (hda : ¬ (t.daddr_h = 0 ∧ t.daddr_l = 0)) :
    read_addrs_v6 t sk = t := by
  unfold read_addrs_v6
  simp [hsa, hda]

theorem canonical_or_v6_fields (t : conn_tuple_t) :
    (canonical_or_v6 t).sport = t.sport ∧ (canonical_or_v6 t).dport = t.dport ∧
    (canonical_or_v6 t).netns = t.netns ∧ (canonical_or_v6 t).pid = t.pid := by
  unfold canonical_or_v6
  split_ifs <;> simp

theorem canonical_or_v6_not_mapped (t : conn_tuple_t)
    (h : is_ipv4_mapped_ipv6 t.saddr_h t.saddr_l t.daddr_h t.daddr_l = false) :
    canonical_or_v6 t = { t with metadata := t.metadata ||| CONN_V6 } := by
  unfold canonical_or_v6
  simp [h]

/-! ## C3: IPv4-mapped IPv6 canonicalization -/

/-- C3: for a source/destination pair recognized as IPv4-mapped-within-IPv6
(both addresses carrying the 0000:ffff pattern with embedded IPv4 words below
2^32), tuple extraction — from a live struct sock and from an IPv6 route
descriptor alike — canonicalizes the tuple to pure-IPv4 form: the upper
64 address bits are cleared, the lower 32 bits hold exactly the embedded IPv4
word, and the V4 flag is set in the metadata while the V6 flag is not added. -/
theorem C3_ipv4_mapped (enabled : Bool) (sk : sock_t) (fl6 : flowi6_t) (t : conn_tuple_t)
    (pid_tgid ty : Nat)
    (hfam : sk.sk_family = AF_INET6) (hen : enabled = true)
    (hs0 : sk.sk_v6_rcv_saddr_w0 = 0) (hs1 : sk.sk_v6_rcv_saddr_w1 = 0)
    (hs2 : sk.sk_v6_rcv_saddr_w2 = 0xFFFF0000) (hs3 : sk.sk_v6_rcv_saddr_w3 < 2 ^ 32)
    (hd0 : sk.sk_v6_daddr_w0 = 0) (hd1 : sk.sk_v6_daddr_w1 = 0)
    (hd2 : sk.sk_v6_daddr_w2 = 0xFFFF0000) (hd3 : sk.sk_v6_daddr_w3 < 2 ^ 32)
    (gs0 : fl6.saddr_w0 = 0) (gs1 : fl6.saddr_w1 = 0)
    (gs2 : fl6.saddr_w2 = 0xFFFF0000) (gs3 : fl6.saddr_w3 < 2 ^ 32)
    (gd0 : fl6.daddr_w0 = 0) (gd1 : fl6.daddr_w1 = 0)
    (gd2 : fl6.daddr_w2 = 0xFFFF0000) (gd3 : fl6.daddr_w3 < 2 ^ 32) :
    ((read_conn_tuple enabled sk pid_tgid ty).2.saddr_h = 0 ∧
     (read_conn_tuple enabled sk pid_tgid ty).2.daddr_h = 0 ∧
     (read_conn_tuple enabled sk pid_tgid ty).2.saddr_l = sk.sk_v6_rcv_saddr_w3 ∧
     (read_conn_tuple enabled sk pid_tgid ty).2.daddr_l = sk.sk_v6_daddr_w3 ∧
     (read_conn_tuple enabled sk pid_tgid ty).2.metadata = ty ||| CONN_V4 ∧
     (ty &&& CONN_V6 = 0 →
       (read_conn_tuple enabled sk pid_tgid ty).2.metadata &&& CONN_V6 = 0)) ∧
    ((read_conn_tuple_partial_from_flowi6 t fl6 pid_tgid ty).2.saddr_h = 0 ∧
     (read_conn_tuple_partial_from_flowi6 t fl6 pid_tgid ty).2.daddr_h = 0 ∧
     (read_conn_tuple_partial_from_flowi6 t fl6 pid_tgid ty).2.saddr_l = fl6.saddr_w3 ∧
     (read_conn_tuple_partial_from_flowi6 t fl6 pid_tgid ty).2.daddr_l = fl6.daddr_w3 ∧
     (read_conn_tuple_partial_from_flowi6 t fl6 pid_tgid ty).2.metadata = ty ||| CONN_V4 ∧
     (ty &&& CONN_V6 = 0 →
       (read_conn_tuple_partial_from_flowi6 t fl6 pid_tgid ty).2.metadata &&& CONN_V6 = 0)) := by
  have hne : ∀ w : Nat, ¬ (0xFFFF0000 + w * 2 ^ 32 = 0) := by intro w; omega
  have hmod : ∀ w : Nat, (0xFFFF0000 + w * 2 ^ 32) % 2 ^ 32 = 0xFFFF0000 := by
    intro w; omega
  have hdiv : ∀ w : Nat, w < 2 ^ 32 → (0xFFFF0000 + w * 2 ^ 32) / 2 ^ 32 % 2 ^ 32 = w := by
    intro w hw; omega
  have hv6 : (ty ||| CONN_V4) &&& CONN_V6 = ty &&& CONN_V6 := by
    have h : (ty ||| CONN_V4) &&& CONN_V6 = (ty &&& CONN_V6) ||| (CONN_V4 &&& CONN_V6) := by
      apply Nat.eq_of_testBit_eq
      intro i
      simp [Nat.testBit_or, Nat.testBit_and, Bool.and_or_distrib_right]
    rw [h]
    have h0 : CONN_V4 &&& CONN_V6 = 0 := by decide
    rw [h0, Nat.or_zero]
  constructor
  · have hfam2 : ¬ check_family sk AF_INET = true := by
      simp [check_family, hfam, AF_INET, AF_INET6]
    have hfam6 : check_family sk AF_INET6 = true := by simp [check_family, hfam]
    have haddr := read_ports_addr_fields
    simp only [read_conn_tuple, read_conn_tuple_partial_sock, read_addrs_v6,
      canonical_or_v6, hfam2, hfam6, hen,
      if_false, ite_false, if_true, ite_true, Bool.false_eq_true, zero_tuple]
    simp only [u64_of_u32_pair, hs0, hs1, hs2, hd0, hd1, hd2]
    simp [is_ipv4_mapped_ipv6, hne, hmod, (read_ports_addr_fields _ sk).1,
      (read_ports_addr_fields _ sk).2.1, (read_ports_addr_fields _ sk).2.2.1,
      (read_ports_addr_fields _ sk).2.2.2.1, (read_ports_addr_fields _ sk).2.2.2.2.1, hv6]
    omega
  · simp only [read_conn_tuple_partial_from_flowi6]
    simp only [u64_of_u32_pair, gs0, gs1, gs2, gd0, gd1, gd2]
    simp [is_ipv4_mapped_ipv6, hne, hmod, hv6]
    split <;> simp [hv6] <;> omega

/-- Witness for C3 at the concrete pair ::ffff:10.0.0.1 / ::ffff:10.0.0.2
(embedded IPv4 words 0x0100000A and 0x0200000A). -/
theorem C3_ipv4_mapped_witness :
    ((read_conn_tuple true sk_mapped 0 CONN_TYPE_TCP).2.saddr_h = 0 ∧
     (read_conn_tuple true sk_mapped 0 CONN_TYPE_TCP).2.daddr_h = 0 ∧
     (read_conn_tuple true sk_mapped 0 CONN_TYPE_TCP).2.saddr_l = sk_mapped.sk_v6_rcv_saddr_w3 ∧
     (read_conn_tuple true sk_mapped 0 CONN_TYPE_TCP).2.daddr_l = sk_mapped.sk_v6_daddr_w3 ∧
     (read_conn_tuple true sk_mapped 0 CONN_TYPE_TCP).2.metadata = CONN_TYPE_TCP ||| CONN_V4 ∧
     (CONN_TYPE_TCP &&& CONN_V6 = 0 →
       (read_conn_tuple true sk_mapped 0 CONN_TYPE_TCP).2.metadata &&& CONN_V6 = 0)) ∧
    ((read_conn_tuple_partial_from_flowi6 zero_tuple fl6_mapped 0 CONN_TYPE_TCP).2.saddr_h = 0 ∧
     (read_conn_tuple_partial_from_flowi6 zero_tuple fl6_mapped 0 CONN_TYPE_TCP).2.daddr_h = 0 ∧
     (read_conn_tuple_partial_from_flowi6 zero_tuple fl6_mapped 0 CONN_TYPE_TCP).2.saddr_l
       = fl6_mapped.saddr_w3 ∧
     (read_conn_tuple_partial_from_flowi6 zero_tuple fl6_mapped 0 CONN_TYPE_TCP).2.daddr_l
       = fl6_mapped.daddr_w3 ∧
     (read_conn_tuple_partial_from_flowi6 zero_tuple fl6_mapped 0 CONN_TYPE_TCP).2.metadata
       = CONN_TYPE_TCP ||| CONN_V4 ∧
     (CONN_TYPE_TCP &&& CONN_V6 = 0 →
       (read_conn_tuple_partial_from_flowi6 zero_tuple fl6_mapped 0 CONN_TYPE_TCP).2.metadata
         &&& CONN_V6 = 0)) :=
  C3_ipv4_mapped true sk_mapped fl6_mapped zero_tuple 0 CONN_TYPE_TCP
    (by decide) rfl (by decide) (by decide) (by decide) (by decide)
    (by decide) (by decide) (by decide) (by decide)
    (by decide) (by decide) (by decide) (by decide)
    (by decide) (by decide) (by decide) (by decide)

/-! ## C7: resolved-flow extraction -/

/-- C8 counterexample to the claim as stated: on a sock with the unsupported
address family 7, extraction fails as required, but the output tuple is
mutated: its pid field (and netns field) are written before the family check,
so "no field of the output tuple is modified" is false. -/
theorem C8_counterexample :
    (read_conn_tuple true sk_badfam (2 ^ 32) 0).1 = false ∧
    (read_conn_tuple true sk_badfam (2 ^ 32) 0).2.pid = 1 ∧
    (read_conn_tuple true sk_badfam (2 ^ 32) 0).2.netns = 5 ∧
    zero_tuple.pid = 0 ∧ zero_tuple.netns = 0 := by decide

/-- C8 amended: extraction from a zeroed tuple fails exactly when the family
is neither v4 nor v6, the family is v6 while IPv6 inspection is disabled, or
a required field (either address or either port) is still zero after all
fallback reads; on unsupported input (unknown family, IPv6 while disabled)
the address and port fields of the output tuple are untouched, but the pid,
metadata and netns fields are written before the family check. -/
theorem C8_amended (enabled : Bool) (sk : sock_t) (t : conn_tuple_t) (pid_tgid ty : Nat) :
    ((read_conn_tuple enabled sk pid_tgid ty).1 = false ↔
      spec_extraction_failure enabled sk) ∧
    ((sk.sk_family ≠ AF_INET ∧ sk.sk_family ≠ AF_INET6) ∨
        (sk.sk_family = AF_INET6 ∧ enabled = false) →
      (read_conn_tuple_partial_sock enabled t sk pid_tgid ty).1 = false ∧
      (read_conn_tuple_partial_sock enabled t sk pid_tgid ty).2 =
        { t with pid := pid_tgid / 2 ^ 32, metadata := ty, netns := sk.netns_inum }) := by
  constructor
  · by_cases hf4 : sk.sk_family = AF_INET
    · have hf6 : ¬ sk.sk_family = AF_INET6 := by rw [hf4]; decide
      by_cases hr : sk.sk_rcv_saddr = 0 <;> by_cases hi : sk.inet_saddr = 0 <;>
        by_cases hd : sk.sk_daddr = 0 <;> by_cases hsp : read_sport sk = 0 <;>
        by_cases hdp : ntohs sk.sk_dport = 0 <;>
        simp [read_conn_tuple, read_conn_tuple_partial_sock, read_addrs_v4,
          read_ports, check_family,
          spec_extraction_failure, zero_tuple, AF_INET, AF_INET6,
          hf4, hf6, hr, hi, hd, hsp, hdp]
    · by_cases hf6 : sk.sk_family = AF_INET6
      · by_cases hen : enabled = true
        · by_cases hsz : u64_of_u32_pair sk.sk_v6_rcv_saddr_w0 sk.sk_v6_rcv_saddr_w1 = 0 ∧
              u64_of_u32_pair sk.sk_v6_rcv_saddr_w2 sk.sk_v6_rcv_saddr_w3 = 0 <;>
            by_cases hdz : u64_of_u32_pair sk.sk_v6_daddr_w0 sk.sk_v6_daddr_w1 = 0 ∧
              u64_of_u32_pair sk.sk_v6_daddr_w2 sk.sk_v6_daddr_w3 = 0 <;>
            by_cases hmp : is_ipv4_mapped_ipv6
              (u64_of_u32_pair sk.sk_v6_rcv_saddr_w0 sk.sk_v6_rcv_saddr_w1)
              (u64_of_u32_pair sk.sk_v6_rcv_saddr_w2 sk.sk_v6_rcv_saddr_w3)
              (u64_of_u32_pair sk.sk_v6_daddr_w0 sk.sk_v6_daddr_w1)
              (u64_of_u32_pair sk.sk_v6_daddr_w2 sk.sk_v6_daddr_w3) = true <;>
            by_cases hsp : read_sport sk = 0 <;> by_cases hdp : ntohs sk.sk_dport = 0 <;>
            simp [read_conn_tuple, read_conn_tuple_partial_sock, read_addrs_v6,
              canonical_or_v6, read_ports, check_family,
              spec_extraction_failure, zero_tuple, AF_INET, AF_INET6,
              hf4, hf6, hen, hsz, hdz, hmp, hsp, hdp]
        · have hen2 : enabled = false := by
            cases enabled
            · rfl
            · exact absurd rfl hen
          simp [read_conn_tuple, read_conn_tuple_partial_sock, check_family,
            spec_extraction_failure, AF_INET, AF_INET6, hf4, hf6, hen2]
      · simp [read_conn_tuple, read_conn_tuple_partial_sock, check_family,
          spec_extraction_failure, hf4, hf6]
  · intro h
    rcases h with ⟨h1, h2⟩ | ⟨h1, h2⟩
    · have hc4 : ¬ check_family sk AF_INET = true := by simp [check_family, h1]
      have hc6 : ¬ check_family sk AF_INET6 = true := by simp [check_family, h2]
      constructor <;> simp [read_conn_tuple_partial_sock, get_netns_from_sock, hc4, hc6]
    · have hc4 : ¬ check_family sk AF_INET = true := by
        simp [check_family, h1, AF_INET, AF_INET6]
      have hc6 : check_family sk AF_INET6 = true := by simp [check_family, h1]
      constructor <;>
        simp [read_conn_tuple_partial_sock, get_netns_from_sock, hc4, hc6, h2]

/-- Witness for C8 amended: the failure-condition equivalence evaluated on
the resolved IPv4 sock (success, no failure condition) and on a v4 sock whose
destination address is zero (failure), plus the no-address-mutation property
on the family-7 sock with a pre-set tuple. -/
theorem C8_amended_witness :
    ((read_conn_tuple true sk_v4res 0 0).1 = false ↔
      spec_extraction_failure true sk_v4res) ∧
    (read_conn_tuple_partial_sock true t_pre sk_badfam 0 9).1 = false ∧
    (read_conn_tuple_partial_sock true t_pre sk_badfam 0 9).2 =
      { t_pre with pid := 0, metadata := 9, netns := 5 } := by
  refine ⟨(C8_amended true sk_v4res t_pre 0 0).1, ?_⟩
  have h := (C8_amended true sk_badfam t_pre 0 9).2 (Or.inl (by decide))
  refine ⟨h.1, ?_⟩
  rw [h.2]
  decide

/-! ## C9: merge-not-overwrite -/

/-- C9 counterexample to the claim as stated: the IPv4 route-descriptor entry
point overwrites a source address that is nonzero on entry (42 becomes the
descriptor's address 7), so merge-not-overwrite does not hold for the
route-descriptor entry point. -/
theorem C9_counterexample :
    t42.saddr_l = 42 ∧
    (read_conn_tuple_partial_from_flowi4 t42 fl4_ok 0 0).2.saddr_l = 7 ∧
    (42 : Nat) ≠ 7 := by decide

/-- C9 amended: the connection-handle entry point fills only unset fields:
pre-set nonzero ports are never overwritten, pre-set nonzero IPv4 addresses
are never overwritten, and pre-set nonzero IPv6 addresses are preserved
whenever the pre-set pair is not recognized as IPv4-mapped (canonicalization
being the one rewrite of pre-set data); the IPv4 route-descriptor entry point
instead overwrites both addresses unconditionally. -/
theorem C9_amended (enabled : Bool) (t : conn_tuple_t) (sk : sock_t) (fl4 : flowi4_t)
    (pid_tgid ty : Nat) :
    (t.sport ≠ 0 →
      (read_conn_tuple_partial_sock enabled t sk pid_tgid ty).2.sport = t.sport) ∧
    (t.dport ≠ 0 →
      (read_conn_tuple_partial_sock enabled t sk pid_tgid ty).2.dport = t.dport) ∧
    (sk.sk_family = AF_INET → t.saddr_l ≠ 0 →
      (read_conn_tuple_partial_sock enabled t sk pid_tgid ty).2.saddr_l = t.saddr_l) ∧
    (sk.sk_family = AF_INET → t.daddr_l ≠ 0 →
      (read_conn_tuple_partial_sock enabled t sk pid_tgid ty).2.daddr_l = t.daddr_l) ∧
    (sk.sk_family = AF_INET6 →
      ¬ (t.saddr_h = 0 ∧ t.saddr_l = 0) → ¬ (t.daddr_h = 0 ∧ t.daddr_l = 0) →
      is_ipv4_mapped_ipv6 t.saddr_h t.saddr_l t.daddr_h t.daddr_l = false →
      ((read_conn_tuple_partial_sock enabled t sk pid_tgid ty).2.saddr_h = t.saddr_h ∧
       (read_conn_tuple_partial_sock enabled t sk pid_tgid ty).2.saddr_l = t.saddr_l ∧
       (read_conn_tuple_partial_sock enabled t sk pid_tgid ty).2.daddr_h = t.daddr_h ∧
       (read_conn_tuple_partial_sock enabled t sk pid_tgid ty).2.daddr_l = t.daddr_l)) ∧
    ((read_conn_tuple_partial_from_flowi4 t fl4 pid_tgid ty).2.saddr_l = fl4.saddr ∧
     (read_conn_tuple_partial_from_flowi4 t fl4 pid_tgid ty).2.daddr_l = fl4.daddr) := by
  refine ⟨fun h => ?_, fun h => ?_, fun hf4 h => ?_, fun hf4 h => ?_,
    fun hf6 hsa hda hnm => ?_, ?_⟩
  · have hh : ∀ t1 : conn_tuple_t, t1.sport = t.sport →
        (read_ports t1 sk).2.sport = t.sport := by
      intro t1 ht1
      rw [(read_ports_spec t1 sk).1, ht1, if_neg h]
    by_cases h4 : check_family sk AF_INET = true
    · simp only [read_conn_tuple_partial_sock, if_pos h4]
      split
      · exact (read_addrs_v4_fields _ sk).1
      · exact hh _ ((read_addrs_v4_fields _ sk).1)
    · by_cases h6 : check_family sk AF_INET6 = true
      · by_cases hen : enabled = false
        · simp only [read_conn_tuple_partial_sock, if_neg h4, if_pos h6, if_pos hen]
        · simp only [read_conn_tuple_partial_sock, if_neg h4, if_pos h6, if_neg hen]
          split
          · exact (read_addrs_v6_fields _ sk).1
          · split
            · exact (read_addrs_v6_fields _ sk).1
            · exact hh _ (((canonical_or_v6_fields _).1).trans ((read_addrs_v6_fields _ sk).1))
      · simp only [read_conn_tuple_partial_sock, if_neg h4, if_neg h6]
  · have hh : ∀ t1 : conn_tuple_t, t1.dport = t.dport →
        (read_ports t1 sk).2.dport = t.dport := by
      intro t1 ht1
      rw [(read_ports_spec t1 sk).2.1, ht1, if_neg h]
    by_cases h4 : check_family sk AF_INET = true
    · simp only [read_conn_tuple_partial_sock, if_pos h4]
      split
      · exact (read_addrs_v4_fields _ sk).2.1
      · exact hh _ ((read_addrs_v4_fields _ sk).2.1)
    · by_cases h6 : check_family sk AF_INET6 = true
      · by_cases hen : enabled = false
        · simp only [read_conn_tuple_partial_sock, if_neg h4, if_pos h6, if_pos hen]
        · simp only [read_conn_tuple_partial_sock, if_neg h4, if_pos h6, if_neg hen]
          split
          · exact (read_addrs_v6_fields _ sk).2.1
          · split
            · exact (read_addrs_v6_fields _ sk).2.1
            · exact hh _
                (((canonical_or_v6_fields _).2.1).trans ((read_addrs_v6_fields _ sk).2.1))
      · simp only [read_conn_tuple_partial_sock, if_neg h4, if_neg h6]
  · have hck : check_family sk AF_INET = true := by simp [check_family, hf4]
    simp only [read_conn_tuple_partial_sock, if_pos hck]
    split
    · exact read_addrs_v4_saddr _ sk h
    · exact ((read_ports_addr_fields _ sk).2.1).trans (read_addrs_v4_saddr _ sk h)
  · have hck : check_family sk AF_INET = true := by simp [check_family, hf4]
    simp only [read_conn_tuple_partial_sock, if_pos hck]
    split
    · exact read_addrs_v4_daddr _ sk h
    · exact ((read_ports_addr_fields _ sk).2.2.2.1).trans (read_addrs_v4_daddr _ sk h)
  · have hck4 : ¬ check_family sk AF_INET = true := by
      simp [check_family, hf6, AF_INET, AF_INET6]
    have hck6 : check_family sk AF_INET6 = true := by simp [check_family, hf6]
    by_cases hen : enabled = true
    · simp [read_conn_tuple_partial_sock, hck4, hck6, hen, hsa, hda, hnm,
        read_addrs_v6_pre, canonical_or_v6_not_mapped,
        (read_ports_addr_fields _ sk).1, (read_ports_addr_fields _ sk).2.1,
        (read_ports_addr_fields _ sk).2.2.1, (read_ports_addr_fields _ sk).2.2.2.1]
    · have hen2 : enabled = false := by
        cases enabled
        · rfl
        · exact absurd rfl hen
      simp [read_conn_tuple_partial_sock, hck4, hck6, hen2]
  · simp only [read_conn_tuple_partial_from_flowi4]
    split_ifs <;> simp

/-- Witness for C9 amended at concrete inputs: the fully pre-set tuple t_pre
is preserved by the connection-handle entry point on the IPv4 sock (ports and
v4 addresses) and on the non-mapped IPv6 sock (all four address halves), and
the route-descriptor entry point overwrites the addresses of t42. -/
theorem C9_amended_witness :
    (read_conn_tuple_partial_sock true t_pre sk_v4res 0 0).2.sport = t_pre.sport ∧
    (read_conn_tuple_partial_sock true t_pre sk_v4res 0 0).2.dport = t_pre.dport ∧
    (read_conn_tuple_partial_sock true t_pre sk_v4res 0 0).2.saddr_l = t_pre.saddr_l ∧
    (read_conn_tuple_partial_sock true t_pre sk_v4res 0 0).2.daddr_l = t_pre.daddr_l ∧
    ((read_conn_tuple_partial_sock true t_pre sk_v6res 0 0).2.saddr_h = t_pre.saddr_h ∧
     (read_conn_tuple_partial_sock true t_pre sk_v6res 0 0).2.saddr_l = t_pre.saddr_l ∧
     (read_conn_tuple_partial_sock true t_pre sk_v6res 0 0).2.daddr_h = t_pre.daddr_h ∧
     (read_conn_tuple_partial_sock true t_pre sk_v6res 0 0).2.daddr_l = t_pre.daddr_l) ∧
    (read_conn_tuple_partial_from_flowi4 t42 fl4_ok 0 0).2.saddr_l = fl4_ok.saddr ∧
    (read_conn_tuple_partial_from_flowi4 t42 fl4_ok 0 0).2.daddr_l = fl4_ok.daddr :=
  ⟨(C9_amended true t_pre sk_v4res fl4_ok 0 0).1 (by decide),
   (C9_amended true t_pre sk_v4res fl4_ok 0 0).2.1 (by decide),
   (C9_amended true t_pre sk_v4res fl4_ok 0 0).2.2.1 (by decide) (by decide),
   (C9_amended true t_pre sk_v4res fl4_ok 0 0).2.2.2.1 (by decide) (by decide),
   (C9_amended true t_pre sk_v6res fl4_ok 0 0).2.2.2.2.1 (by decide) (by decide)
     (by decide) (by decide),
   (C9_amended true t42 sk_v4res fl4_ok 0 0).2.2.2.2.2⟩

end DD
